import Mathlib

/-!
Verification development for the IDS-Dataset scenario builder
(`src/scr/ids_dataset.cc`, ns-3 simulation program).

The whole build phase of the program (everything `main` does before
`Simulator::Run()`) is straight-line code: it creates nodes, assigns
subnets through `Ipv4AddressHelper`, and installs server / benign-client /
attack applications, each with a concrete `Start`/`Stop` time.  We embed
that build phase as a pure function from a tape of random draws to the
list of scheduled events it installs.

Conventions of the embedding:
* Times.  Every time literal in the source is a multiple of 0.01 s, so
  times are represented exactly as integer centiseconds (`ℤ`):
  `5.0 s ↦ 500`, `appStopTime = 1500.0 s ↦ 150000`, `0.1 s ↦ 10`,
  `0.01 s ↦ 1`.  Random draws that feed times are likewise drawn in
  centiseconds.
* Randomness.  Each random draw site of the source (ns-3
  `UniformRandomVariable` / `ExponentialRandomVariable` objects and the
  C-library `rand()` calls of the remote-client loop) is a field of the
  `Tape` structure, a function of the loop indices at that site.  Any
  concrete run of the program corresponds to one `Tape`.  The support of
  the distributions (nonnegativity of exponential draws, min/max of
  uniform draws) is captured by `SupportOk`; ns-3 exponential variables
  with the default `Bound = 0` are unbounded above, so no upper bound is
  assumed for them.
* Addresses are 32-bit IPv4 addresses as natural numbers (`ipv4`).
* Application attributes that no claim mentions (`DataRate`,
  `OnTime`/`OffTime`, `Interval`, `MaxPackets`) are not modelled; packet
  or transfer sizes (`PacketSize`/`MaxBytes`) are modelled in the `sz`
  field.
-/

namespace IdsDataset

set_option maxRecDepth 100000

/-- Medium/socket factory of an installed application: `ns3::TcpSocketFactory`
or `ns3::UdpSocketFactory` (the `UdpEchoClient`/`UdpEchoServer` helpers are UDP). -/
inductive Proto where
  | tcp
  | udp
  deriving DecidableEq, Repr

/-- Node populations created at the top of `main`
(`coreRouters`, `distributionSwitches`, …). -/
inductive Pop where
  | core
  | dist
  | access
  | enterprise
  | dmz
  | vpnsrv
  | wifiAp
  | wifi
  | remote
  deriving DecidableEq, Repr

/-- Role of an installed application: a listening server (`PacketSinkHelper`,
`UdpEchoServerHelper`) or a traffic-generating client/attack application. -/
inductive Role where
  | server
  | client
  deriving DecidableEq, Repr

/-- Which source block installed the application (its provenance). -/
inductive Prov where
  | httpServer
  | httpsServer
  | smtpServer
  | imapServer
  | pop3Server
  | dnsServer
  | ftpServer
  | sshServer
  | echoServer
  | streamServer
  | fakeHttpServer
  | cncServer
  | entHttp
  | entHttps
  | entEmail
  | entDns
  | entFtp
  | entSsh
  | entEcho
  | entStream
  | wifiHttp
  | wifiHttps
  | wifiEmail
  | wifiDns
  | wifiStream
  | wifiFtp
  | wifiSsh
  | wifiEcho
  | remHttp
  | remHttps
  | remEmail
  | remDns
  | remFtp
  | remSsh
  | remEcho
  | remStream
  | synFlood
  | udpFlood
  | icmpFlood
  | portScan
  | mitmRedirect
  | ftpBrute
  | sqlInjection
  | sshBrute
  | ftpLoginFlood
  | botComm
  | vpnFlood
  | credStuff
  | xssAttack
  | arpSpoof
  | zeroDayHttp
  | zeroDayHttps
  | ddos
  deriving DecidableEq, Repr

/-- Packed IPv4 address `a.b.c.d` as a natural number. -/
def ipv4 (a b c d : ℕ) : ℕ := ((a * 256 + b) * 256 + c) * 256 + d

/-- Destination of a generated flow, keeping track of how the source obtained
it: `dir` for a lookup in an interface container / node object (the code's
stand-in for the spec's EndpointDirectory, e.g. `dmzInterfaces.GetAddress(0)`,
`vpnInterfaces.GetAddress(0)`, `node->GetObject<Ipv4>()->GetAddress(1,0)`),
`literal` for a hardcoded `Ipv4Address("…")` literal, and `any` for servers
listening on `Ipv4Address::GetAny()`. -/
inductive Dest where
  | dir (key : Pop × ℕ)
  | literal (addr : ℕ)
  | any
  deriving DecidableEq, Repr

/-- Truth of `Dest.isDir d` means the destination was resolved through an
interface-container / node lookup rather than embedded as a literal. -/
def Dest.isDir : Dest → Prop
  | .dir _ => True
  | _ => False

instance : DecidablePred Dest.isDir := fun d => by
  cases d <;> simp [Dest.isDir] <;> infer_instance

/-- Concrete address a destination resolves to, given the address assignment
performed by the build (DMZ CSMA segment `10.3.1.0/24` assigns `10.3.1.(k+1)`
to `dmzServers.Get(k)`; the core router gets `10.1.0.1` on its first
point-to-point link; the VPN server gets `10.1.0.9` on the `vpnToCore` link). -/
def dirAddr : Pop × ℕ → ℕ
  | (.dmz, k) => ipv4 10 3 1 (k + 1)
  | (.core, _) => ipv4 10 1 0 1
  | (.vpnsrv, _) => ipv4 10 1 0 9
  | _ => 0

/-- Address a destination resolves to (`any` resolves to the wildcard 0). -/
def resolveDest : Dest → ℕ
  | .dir key => dirAddr key
  | .literal a => a
  | .any => 0

/-- One installed application of the build phase: a scheduled event of the
timeline.  `start`/`stop` are the `Start`/`Stop` times in centiseconds;
`sz` is the `PacketSize`/`MaxBytes` attribute in bytes (0 where the source
sets none, e.g. sinks and the continuous SYN flood). -/
structure Ev where
  role : Role
  src : Pop × ℕ
  dest : Dest
  port : ℕ
  proto : Proto
  prov : Prov
  start : ℤ
  stop : ℤ
  sz : ℕ
  deriving DecidableEq, Repr

/-! ## Global constants of the source (ports and times, times in centiseconds) -/

/-- Population sizes (`Create(…)` calls, lines 188-207). -/
def nEnterpriseClients : ℕ := 10

/-- Number of Wi-Fi station nodes (line 204). -/
def nWifiStaNodes : ℕ := 10

/-- Number of remote clients (line 207). -/
def nRemoteClients : ℕ := 10

/-- Number of DMZ servers (line 197). -/
def nDmzServers : ℕ := 5

/-- Application start time, line 506 (`1.0` s). -/
def appStartTime : ℤ := 100

/-- Application stop time, line 507 (`1500.0` s). -/
def appStopTime : ℤ := 150000

/-- Server ports (lines 511-609). -/
def httpPort : ℕ := 80

/-- HTTPS port (line 512). -/
def httpsPort : ℕ := 443

/-- SMTP port (line 535). -/
def smtpPort : ℕ := 25

/-- IMAP port (line 536). -/
def imapPort : ℕ := 143

/-- POP3 port (line 537). -/
def pop3Port : ℕ := 110

/-- DNS port (line 567). -/
def dnsPort : ℕ := 53

/-- FTP control port (line 579). -/
def ftpPort : ℕ := 21

/-- SSH port (line 589). -/
def sshPort : ℕ := 22

/-- UDP echo port (line 599). -/
def echoPort : ℕ := 9

/-- RTSP streaming port (line 609). -/
def streamPort : ℕ := 554

/-- Fake HTTP server port for the MitM simulation (line 1380). -/
def fakeHttpPort : ℕ := 8081

/-- Botnet C&C port (line 1538). -/
def cncPort : ℕ := 9999

/-- VPN port targeted by the VPN flood / credential stuffing (line 1583). -/
def vpnPort : ℕ := 443

/-! ## Random tape

One field per random draw site of the source, as a function of the loop
indices at that site.  `…Rand` fields of the remote-client loop are the raw
`rand()` results (the `%` reduction of the source is applied where the value
is used, as in the source). -/

structure Tape where
  entHttpPacketSize : ℕ → ℕ
  entHttpJitter : ℕ → ℤ
  entHttpsPacketSize : ℕ → ℕ
  entHttpsJitter : ℕ → ℤ
  entEmailProto : ℕ → ℕ
  entEmailMaxBytes : ℕ → ℕ → ℕ
  entEmailJitter : ℕ → ℕ → ℤ
  entDnsPacketSize : ℕ → ℕ → ℕ
  entFtpMaxBytes : ℕ → ℕ → ℕ
  entFtpInterval : ℕ → ℕ → ℤ
  entSshMaxBytes : ℕ → ℕ → ℕ
  entSshIdle : ℕ → ℕ → ℤ
  entEchoPacketSize : ℕ → ℕ
  entStreamPacketSize : ℕ → ℕ
  wifiHttpMaxBytes : ℕ → ℕ
  wifiHttpsMaxBytes : ℕ → ℕ
  wifiEmailProto : ℕ → ℕ
  wifiEmailMaxBytes : ℕ → ℕ
  wifiDnsPacketSize : ℕ → ℕ
  wifiStreamPacketSize : ℕ → ℕ
  wifiFtpMaxBytes : ℕ → ℕ
  wifiSshMaxBytes : ℕ → ℕ
  wifiEchoPacketSize : ℕ → ℕ
  remHttpRand : ℕ → ℕ
  remHttpsRand : ℕ → ℕ
  remEmailProto : ℕ → ℕ
  remEmailSizeRand : ℕ → ℕ
  remEmailStartRand : ℕ → ℕ
  remFtpSizeRand : ℕ → ℕ
  remFtpStartRand : ℕ → ℕ
  remSshSizeRand : ℕ → ℕ
  remSshStartRand : ℕ → ℕ
  remEchoSizeRand : ℕ → ℕ
  remEchoStartRand : ℕ → ℕ
  remStreamSizeRand : ℕ → ℕ
  remStreamStartRand : ℕ → ℕ

/-- Support of the random distributions, as configured in the source, for the
draw sites whose support any proof below relies on: exponential draws
(`ExponentialRandomVariable`, default `Bound = 0`, hence unbounded above) are
nonnegative; the SSH idle time is uniform on `[1.0 s, 5.0 s]`
(lines 832-834); the e-mail protocol selector is `GetInteger` on a uniform
`[0,2]` variable (lines 703-705, 971-973, 1142-1144). -/
def SupportOk (T : Tape) : Prop :=
  (∀ i < 10, 0 ≤ T.entHttpJitter i ∧ 0 ≤ T.entHttpsJitter i ∧
    T.entEmailProto i ≤ 2 ∧ T.wifiEmailProto i ≤ 2 ∧ T.remEmailProto i ≤ 2) ∧
  (∀ i < 10, ∀ j < 10, 0 ≤ T.entEmailJitter i j) ∧
  (∀ i < 10, ∀ j < 5, 0 ≤ T.entFtpInterval i j) ∧
  (∀ i < 10, ∀ j < 4, 100 ≤ T.entSshIdle i j ∧ T.entSshIdle i j ≤ 500)

instance (T : Tape) : Decidable (SupportOk T) := by
  unfold SupportOk
  infer_instance

/-! ## Server applications in the DMZ (lines 506-613) -/

/-- HTTP `PacketSink` on `dmzServers.Get(0)` (lines 514-519). -/
def httpServerEv : Ev :=
  { role := .server, src := (.dmz, 0), dest := .any, port := httpPort,
    proto := .tcp, prov := .httpServer, start := appStartTime, stop := appStopTime, sz := 0 }

/-- HTTPS `PacketSink` on `dmzServers.Get(0)` (lines 521-526). -/
def httpsServerEv : Ev :=
  { role := .server, src := (.dmz, 0), dest := .any, port := httpsPort,
    proto := .tcp, prov := .httpsServer, start := appStartTime, stop := appStopTime, sz := 0 }

/-- SMTP `PacketSink` on `dmzServers.Get(1)` (lines 539-544). -/
def smtpServerEv : Ev :=
  { role := .server, src := (.dmz, 1), dest := .any, port := smtpPort,
    proto := .tcp, prov := .smtpServer, start := appStartTime, stop := appStopTime, sz := 0 }

/-- IMAP `PacketSink` on `dmzServers.Get(1)` (lines 546-551). -/
def imapServerEv : Ev :=
  { role := .server, src := (.dmz, 1), dest := .any, port := imapPort,
    proto := .tcp, prov := .imapServer, start := appStartTime, stop := appStopTime, sz := 0 }

/-- POP3 `PacketSink` on `dmzServers.Get(1)` (lines 553-558). -/
def pop3ServerEv : Ev :=
  { role := .server, src := (.dmz, 1), dest := .any, port := pop3Port,
    proto := .tcp, prov := .pop3Server, start := appStartTime, stop := appStopTime, sz := 0 }

/-- DNS `UdpEchoServer` on `dmzServers.Get(2)` (lines 566-572). -/
def dnsServerEv : Ev :=
  { role := .server, src := (.dmz, 2), dest := .any, port := dnsPort,
    proto := .udp, prov := .dnsServer, start := appStartTime, stop := appStopTime, sz := 0 }

/-- FTP `PacketSink` on `dmzServers.Get(3)` (lines 578-584). -/
def ftpServerEv : Ev :=
  { role := .server, src := (.dmz, 3), dest := .any, port := ftpPort,
    proto := .tcp, prov := .ftpServer, start := appStartTime, stop := appStopTime, sz := 0 }

/-- SSH `PacketSink` on `dmzServers.Get(3)` (lines 588-594). -/
def sshServerEv : Ev :=
  { role := .server, src := (.dmz, 3), dest := .any, port := sshPort,
    proto := .tcp, prov := .sshServer, start := appStartTime, stop := appStopTime, sz := 0 }

/-- UDP echo server on `dmzServers.Get(4)` (lines 598-603). -/
def echoServerEv : Ev :=
  { role := .server, src := (.dmz, 4), dest := .any, port := echoPort,
    proto := .udp, prov := .echoServer, start := appStartTime, stop := appStopTime, sz := 0 }

/-- Streaming UDP `PacketSink` on `dmzServers.Get(0)` (lines 608-613). -/
def streamServerEv : Ev :=
  { role := .server, src := (.dmz, 0), dest := .any, port := streamPort,
    proto := .udp, prov := .streamServer, start := appStartTime, stop := appStopTime, sz := 0 }

/-- All ten DMZ server installations of lines 506-613, in source order. -/
def serverApps : List Ev :=
  [httpServerEv, httpsServerEv, smtpServerEv, imapServerEv, pop3ServerEv,
   dnsServerEv, ftpServerEv, sshServerEv, echoServerEv, streamServerEv]

/-! ## Benign applications on enterprise clients (lines 663-932) -/

/-- HTTP `OnOff` client of enterprise client `i` (lines 675-684):
start `5.0 + i + randInterRequestTime`, stop `appStopTime`,
`PacketSize` drawn from the shared `randPayloadSize`. -/
def entHttpEv (T : Tape) (i : ℕ) : Ev :=
  { role := .client, src := (.enterprise, i), dest := .dir (.dmz, 0), port := httpPort,
    proto := .tcp, prov := .entHttp, start := 500 + 100 * (i : ℤ) + T.entHttpJitter i,
    stop := appStopTime, sz := T.entHttpPacketSize i }

/-- HTTPS `OnOff` client of enterprise client `i` (lines 686-695):
start `6.0 + i + randInterRequestTime`. -/
def entHttpsEv (T : Tape) (i : ℕ) : Ev :=
  { role := .client, src := (.enterprise, i), dest := .dir (.dmz, 0), port := httpsPort,
    proto := .tcp, prov := .entHttps, start := 600 + 100 * (i : ℤ) + T.entHttpsJitter i,
    stop := appStopTime, sz := T.entHttpsPacketSize i }

/-- Loop of lines 672-696: HTTP and HTTPS clients per enterprise client. -/
def entHttpHttpsApps (T : Tape) : List Ev :=
  (List.range nEnterpriseClients).flatMap fun i : ℕ => [entHttpEv T i, entHttpsEv T i]

/-- Port the e-mail destination of the source maps a protocol draw to
(lines 722-737: 0 ↦ SMTP, 1 ↦ IMAP, otherwise POP3). -/
def emailPortOf (choice : ℕ) : ℕ :=
  if choice = 0 then smtpPort else if choice = 1 then imapPort else pop3Port

/-- E-mail `BulkSend` `j` of enterprise client `i` (lines 714-752):
protocol drawn once per client, start `10.0 + i*2 + emailIntervalRand`,
`MaxBytes` drawn per message. -/
def entEmailEv (T : Tape) (i j : ℕ) : Ev :=
  { role := .client, src := (.enterprise, i), dest := .dir (.dmz, 1),
    port := emailPortOf (T.entEmailProto i),
    proto := .tcp, prov := .entEmail, start := 1000 + 200 * (i : ℤ) + T.entEmailJitter i j,
    stop := appStopTime, sz := T.entEmailMaxBytes i j }

/-- Loop of lines 714-752: ten e-mails per enterprise client. -/
def entEmailApps (T : Tape) : List Ev :=
  (List.range nEnterpriseClients).flatMap fun i : ℕ =>
    (List.range 10).map fun j : ℕ => entEmailEv T i j

/-- DNS `UdpEchoClient` `j` of enterprise client `i` (lines 766-786):
start `15.0 + i*0.5 + j*0.1`, `dnsRequestCount = 20 + i*5` requests. -/
def entDnsEv (T : Tape) (i j : ℕ) : Ev :=
  { role := .client, src := (.enterprise, i), dest := .dir (.dmz, 2), port := dnsPort,
    proto := .udp, prov := .entDns, start := 1500 + 50 * (i : ℤ) + 10 * (j : ℤ),
    stop := appStopTime, sz := T.entDnsPacketSize i j }

/-- Loop of lines 766-786. -/
def entDnsApps (T : Tape) : List Ev :=
  (List.range nEnterpriseClients).flatMap fun i : ℕ =>
    (List.range (20 + i * 5)).map fun j : ℕ => entDnsEv T i j

/-- FTP `BulkSend` `j` of enterprise client `i` (lines 799-820):
start `20.0 + i*0.5 + j*ftpTransferIntervalRand`, `ftpTransferCount = 3 + i%3`. -/
def entFtpEv (T : Tape) (i j : ℕ) : Ev :=
  { role := .client, src := (.enterprise, i), dest := .dir (.dmz, 3), port := ftpPort,
    proto := .tcp, prov := .entFtp,
    start := 2000 + 50 * (i : ℤ) + (j : ℤ) * T.entFtpInterval i j,
    stop := appStopTime, sz := T.entFtpMaxBytes i j }

/-- Loop of lines 799-820. -/
def entFtpApps (T : Tape) : List Ev :=
  (List.range nEnterpriseClients).flatMap fun i : ℕ =>
    (List.range (3 + i % 3)).map fun j : ℕ => entFtpEv T i j

/-- SSH `BulkSend` `j` of enterprise client `i` (lines 836-857):
start `25.0 + i*0.5 + j*sshIdleTimeRand`, `sshSessionCount = 2 + i%3`. -/
def entSshEv (T : Tape) (i j : ℕ) : Ev :=
  { role := .client, src := (.enterprise, i), dest := .dir (.dmz, 3), port := sshPort,
    proto := .tcp, prov := .entSsh,
    start := 2500 + 50 * (i : ℤ) + (j : ℤ) * T.entSshIdle i j,
    stop := appStopTime, sz := T.entSshMaxBytes i j }

/-- Loop of lines 836-857. -/
def entSshApps (T : Tape) : List Ev :=
  (List.range nEnterpriseClients).flatMap fun i : ℕ =>
    (List.range (2 + i % 3)).map fun j : ℕ => entSshEv T i j

/-- UDP echo client of enterprise client `i` (lines 874-892): start `12.0 + i*0.5`. -/
def entEchoEv (T : Tape) (i : ℕ) : Ev :=
  { role := .client, src := (.enterprise, i), dest := .dir (.dmz, 4), port := echoPort,
    proto := .udp, prov := .entEcho, start := 1200 + 50 * (i : ℤ),
    stop := appStopTime, sz := T.entEchoPacketSize i }

/-- Loop of lines 874-892. -/
def entEchoApps (T : Tape) : List Ev :=
  (List.range nEnterpriseClients).map fun i : ℕ => entEchoEv T i

/-- Streaming `OnOff` client of enterprise client `i` (lines 913-932):
destination is the hardcoded literal `Ipv4Address("10.3.1.1")` (line 917),
start `100.0 + i*0.5`. -/
def entStreamEv (T : Tape) (i : ℕ) : Ev :=
  { role := .client, src := (.enterprise, i), dest := .literal (ipv4 10 3 1 1),
    port := streamPort, proto := .udp, prov := .entStream,
    start := 10000 + 50 * (i : ℤ), stop := appStopTime, sz := T.entStreamPacketSize i }

/-- Loop of lines 913-932. -/
def entStreamApps (T : Tape) : List Ev :=
  (List.range nEnterpriseClients).map fun i : ℕ => entStreamEv T i

/-! ## Benign applications on Wi-Fi station nodes (lines 938-1116) -/

/-- HTTP `BulkSend` of Wi-Fi client `i` (lines 944-954): start `6.0 + i*0.75`. -/
def wifiHttpEv (T : Tape) (i : ℕ) : Ev :=
  { role := .client, src := (.wifi, i), dest := .dir (.dmz, 0), port := httpPort,
    proto := .tcp, prov := .wifiHttp, start := 600 + 75 * (i : ℤ),
    stop := appStopTime, sz := T.wifiHttpMaxBytes i }

/-- HTTPS `BulkSend` of Wi-Fi client `i` (lines 956-966): start `6.5 + i*0.75`. -/
def wifiHttpsEv (T : Tape) (i : ℕ) : Ev :=
  { role := .client, src := (.wifi, i), dest := .dir (.dmz, 0), port := httpsPort,
    proto := .tcp, prov := .wifiHttps, start := 650 + 75 * (i : ℤ),
    stop := appStopTime, sz := T.wifiHttpsMaxBytes i }

/-- Loop of lines 941-967. -/
def wifiHttpHttpsApps (T : Tape) : List Ev :=
  (List.range nWifiStaNodes).flatMap fun i : ℕ => [wifiHttpEv T i, wifiHttpsEv T i]

/-- E-mail `BulkSend` of Wi-Fi client `i` (lines 975-1006): start `10.0 + i*0.5`. -/
def wifiEmailEv (T : Tape) (i : ℕ) : Ev :=
  { role := .client, src := (.wifi, i), dest := .dir (.dmz, 1),
    port := emailPortOf (T.wifiEmailProto i),
    proto := .tcp, prov := .wifiEmail, start := 1000 + 50 * (i : ℤ),
    stop := appStopTime, sz := T.wifiEmailMaxBytes i }

/-- Loop of lines 975-1006. -/
def wifiEmailApps (T : Tape) : List Ev :=
  (List.range nWifiStaNodes).map fun i : ℕ => wifiEmailEv T i

/-- DNS `UdpEchoClient` of Wi-Fi client `i` (lines 1010-1025): start `15.0 + i*0.2`. -/
def wifiDnsEv (T : Tape) (i : ℕ) : Ev :=
  { role := .client, src := (.wifi, i), dest := .dir (.dmz, 2), port := dnsPort,
    proto := .udp, prov := .wifiDns, start := 1500 + 20 * (i : ℤ),
    stop := appStopTime, sz := T.wifiDnsPacketSize i }

/-- Loop of lines 1010-1025. -/
def wifiDnsApps (T : Tape) : List Ev :=
  (List.range nWifiStaNodes).map fun i : ℕ => wifiDnsEv T i

/-- Streaming `OnOff` client of Wi-Fi client `i` (lines 1043-1060):
destination is the hardcoded literal `Ipv4Address("10.3.1.1")` (line 1046),
start `100.0 + i*0.3`. -/
def wifiStreamEv (T : Tape) (i : ℕ) : Ev :=
  { role := .client, src := (.wifi, i), dest := .literal (ipv4 10 3 1 1),
    port := streamPort, proto := .udp, prov := .wifiStream,
    start := 10000 + 30 * (i : ℤ), stop := appStopTime, sz := T.wifiStreamPacketSize i }

/-- Loop of lines 1043-1060. -/
def wifiStreamApps (T : Tape) : List Ev :=
  (List.range nWifiStaNodes).map fun i : ℕ => wifiStreamEv T i

/-- FTP `BulkSend` of Wi-Fi client `i` (lines 1064-1078): start `20.0 + i*1.0`. -/
def wifiFtpEv (T : Tape) (i : ℕ) : Ev :=
  { role := .client, src := (.wifi, i), dest := .dir (.dmz, 3), port := ftpPort,
    proto := .tcp, prov := .wifiFtp, start := 2000 + 100 * (i : ℤ),
    stop := appStopTime, sz := T.wifiFtpMaxBytes i }

/-- Loop of lines 1064-1078. -/
def wifiFtpApps (T : Tape) : List Ev :=
  (List.range nWifiStaNodes).map fun i : ℕ => wifiFtpEv T i

/-- SSH `BulkSend` of Wi-Fi client `i` (lines 1082-1096): start `25.0 + i*1.2`. -/
def wifiSshEv (T : Tape) (i : ℕ) : Ev :=
  { role := .client, src := (.wifi, i), dest := .dir (.dmz, 3), port := sshPort,
    proto := .tcp, prov := .wifiSsh, start := 2500 + 120 * (i : ℤ),
    stop := appStopTime, sz := T.wifiSshMaxBytes i }

/-- Loop of lines 1082-1096. -/
def wifiSshApps (T : Tape) : List Ev :=
  (List.range nWifiStaNodes).map fun i : ℕ => wifiSshEv T i

/-- UDP echo client of Wi-Fi client `i` (lines 1100-1116): start `12.0 + i*0.5`. -/
def wifiEchoEv (T : Tape) (i : ℕ) : Ev :=
  { role := .client, src := (.wifi, i), dest := .dir (.dmz, 4), port := echoPort,
    proto := .udp, prov := .wifiEcho, start := 1200 + 50 * (i : ℤ),
    stop := appStopTime, sz := T.wifiEchoPacketSize i }

/-- Loop of lines 1100-1116. -/
def wifiEchoApps (T : Tape) : List Ev :=
  (List.range nWifiStaNodes).map fun i : ℕ => wifiEchoEv T i

/-! ## Applications on remote clients (lines 1122-1210)

One source loop installs eight applications per remote client; its random
values come from the process-global C `rand()`. -/

/-- HTTP `BulkSend` of remote client `i` (lines 1126-1131):
start `5.0 + i*10`, stop `30.0 + i*20`, `MaxBytes = 256 KB + rand() % 1 MB`. -/
def remHttpEv (T : Tape) (i : ℕ) : Ev :=
  { role := .client, src := (.remote, i), dest := .dir (.dmz, 0), port := httpPort,
    proto := .tcp, prov := .remHttp, start := 500 + 1000 * (i : ℤ),
    stop := 3000 + 2000 * (i : ℤ),
    sz := 256 * 1024 + T.remHttpRand i % (1024 * 1024) }

/-- HTTPS `BulkSend` of remote client `i` (lines 1134-1139): start `12.0 + i*15`. -/
def remHttpsEv (T : Tape) (i : ℕ) : Ev :=
  { role := .client, src := (.remote, i), dest := .dir (.dmz, 0), port := httpsPort,
    proto := .tcp, prov := .remHttps, start := 1200 + 1500 * (i : ℤ),
    stop := appStopTime, sz := 128 * 1024 + T.remHttpsRand i % (1024 * 1024) }

/-- E-mail `BulkSend` of remote client `i` (lines 1142-1166):
start `20.0 + i*10 + rand() % 15`, `MaxBytes = 20 KB + rand() % 80 KB`. -/
def remEmailEv (T : Tape) (i : ℕ) : Ev :=
  { role := .client, src := (.remote, i), dest := .dir (.dmz, 1),
    port := emailPortOf (T.remEmailProto i),
    proto := .tcp, prov := .remEmail,
    start := 2000 + 1000 * (i : ℤ) + 100 * ((T.remEmailStartRand i % 15 : ℕ) : ℤ),
    stop := appStopTime, sz := 20 * 1024 + T.remEmailSizeRand i % (80 * 1024) }

/-- DNS `UdpEchoClient` of remote client `i` (lines 1169-1175):
start `30.0 + i*5`, stop `150.0 + i*10`, `PacketSize = 48`. -/
def remDnsEv (i : ℕ) : Ev :=
  { role := .client, src := (.remote, i), dest := .dir (.dmz, 2), port := dnsPort,
    proto := .udp, prov := .remDns, start := 3000 + 500 * (i : ℤ),
    stop := 15000 + 1000 * (i : ℤ), sz := 48 }

/-- FTP `BulkSend` of remote client `i` (lines 1178-1183):
start `40.0 + i*8 + rand() % 20`. -/
def remFtpEv (T : Tape) (i : ℕ) : Ev :=
  { role := .client, src := (.remote, i), dest := .dir (.dmz, 3), port := ftpPort,
    proto := .tcp, prov := .remFtp,
    start := 4000 + 800 * (i : ℤ) + 100 * ((T.remFtpStartRand i % 20 : ℕ) : ℤ),
    stop := appStopTime, sz := 200 * 1024 + T.remFtpSizeRand i % (3 * 1024 * 1024) }

/-- SSH `BulkSend` of remote client `i` (lines 1187-1192):
start `50.0 + i*6 + rand() % 10`. -/
def remSshEv (T : Tape) (i : ℕ) : Ev :=
  { role := .client, src := (.remote, i), dest := .dir (.dmz, 3), port := sshPort,
    proto := .tcp, prov := .remSsh,
    start := 5000 + 600 * (i : ℤ) + 100 * ((T.remSshStartRand i % 10 : ℕ) : ℤ),
    stop := appStopTime, sz := 100 * 1024 + T.remSshSizeRand i % (300 * 1024) }

/-- UDP echo client of remote client `i` (lines 1195-1202):
start `55.0 + i*4 + rand() % 20`, `PacketSize = 256 + rand() % 512`. -/
def remEchoEv (T : Tape) (i : ℕ) : Ev :=
  { role := .client, src := (.remote, i), dest := .dir (.dmz, 4), port := echoPort,
    proto := .udp, prov := .remEcho,
    start := 5500 + 400 * (i : ℤ) + 100 * ((T.remEchoStartRand i % 20 : ℕ) : ℤ),
    stop := appStopTime, sz := 256 + T.remEchoSizeRand i % 512 }

/-- Streaming `OnOff` client of remote client `i` (lines 1205-1209):
destination is the hardcoded literal `Ipv4Address("10.3.1.1")` (line 1205),
start `60.0 + i*3 + rand() % 20`, stop `160.0`. -/
def remStreamEv (T : Tape) (i : ℕ) : Ev :=
  { role := .client, src := (.remote, i), dest := .literal (ipv4 10 3 1 1),
    port := streamPort, proto := .udp, prov := .remStream,
    start := 6000 + 300 * (i : ℤ) + 100 * ((T.remStreamStartRand i % 20 : ℕ) : ℤ),
    stop := 16000, sz := 512 + T.remStreamSizeRand i % 1024 }

/-- Loop of lines 1122-1210: the eight applications per remote client. -/
def remApps (T : Tape) : List Ev :=
  (List.range nRemoteClients).flatMap fun i : ℕ =>
    [remHttpEv T i, remHttpsEv T i, remEmailEv T i, remDnsEv i,
     remFtpEv T i, remSshEv T i, remEchoEv T i, remStreamEv T i]

/-! ## Attack simulation blocks (lines 1274-1756) -/

/-- SYN flood `BulkSend` from remote client `i` on the HTTP server
(lines 1283-1294): start `60.0 + i*0.1`, stop `100.0`, `MaxBytes = 0`
(continuous); `numClients = 3`. -/
def synFloodEv (i : ℕ) : Ev :=
  { role := .client, src := (.remote, i), dest := .dir (.dmz, 0), port := httpPort,
    proto := .tcp, prov := .synFlood, start := 6000 + 10 * (i : ℤ), stop := 10000, sz := 0 }

/-- Loop of lines 1283-1294. -/
def synFloodApps : List Ev :=
  (List.range 3).map fun i : ℕ => synFloodEv i

/-- UDP flood `OnOff` from enterprise client `i` on the DNS server
(lines 1307-1318): start `100.0 + i*0.1`, stop `125.0`, 512-byte packets. -/
def udpFloodEv (i : ℕ) : Ev :=
  { role := .client, src := (.enterprise, i), dest := .dir (.dmz, 2), port := dnsPort,
    proto := .udp, prov := .udpFlood, start := 10000 + 10 * (i : ℤ), stop := 12500, sz := 512 }

/-- Loop of lines 1307-1318. -/
def udpFloodApps : List Ev :=
  (List.range 3).map fun i : ℕ => udpFloodEv i

/-- ICMP flood `UdpEchoClient` from Wi-Fi client `i` on the core router
(lines 1332-1345): target `coreRouterIp` port 0, start `205.0 + i*0.1`,
stop `255.0`, `PacketSize = 64`. -/
def icmpFloodEv (i : ℕ) : Ev :=
  { role := .client, src := (.wifi, i), dest := .dir (.core, 0), port := 0,
    proto := .udp, prov := .icmpFlood, start := 20500 + 10 * (i : ℤ), stop := 25500, sz := 64 }

/-- Loop of lines 1332-1345. -/
def icmpFloodApps : List Ev :=
  (List.range 3).map fun i : ℕ => icmpFloodEv i

/-- Port list scanned by the port-scanning attack (line 1357). -/
def portsToScan : List ℕ := [21, 22, 25, 53, 80, 110, 123, 143, 179, 443, 500, 587]

/-- Port-scan probe from Wi-Fi client `i` on port `port` of the DMZ web server
(lines 1363-1372): `BulkSend` of 512 bytes, start
`scanStartTime + i*0.1 + port*0.01` (note: `port` is the port NUMBER, the loop
variable of `for (uint16_t port : portsToScan)`), stop `168.0`. -/
def portScanEv (i port : ℕ) : Ev :=
  { role := .client, src := (.wifi, i), dest := .dir (.dmz, 0), port := port,
    proto := .tcp, prov := .portScan,
    start := 15000 + 10 * (i : ℤ) + (port : ℤ), stop := 16800, sz := 512 }

/-- Loops of lines 1360-1373: `numScanClients = 3` attackers over `portsToScan`. -/
def portScanApps : List Ev :=
  (List.range 3).flatMap fun i : ℕ => portsToScan.map fun port : ℕ => portScanEv i port

/-- Fake HTTP `PacketSink` for the MitM simulation, on `dmzServers.Get(1)`
port 8081 (lines 1383-1387): start `10.0`, stop `450.0`. -/
def fakeHttpServerEv : Ev :=
  { role := .server, src := (.dmz, 1), dest := .any, port := fakeHttpPort,
    proto := .tcp, prov := .fakeHttpServer, start := 1000, stop := 45000, sz := 0 }

/-- Redirected HTTP `BulkSend` of enterprise client `i` to the fake server
(lines 1401-1412): start `262.0 + i*0.1`, stop `313.0`, `MaxBytes = 1 MB`;
`numMitmClients = 2`. -/
def mitmEv (i : ℕ) : Ev :=
  { role := .client, src := (.enterprise, i), dest := .dir (.dmz, 1), port := fakeHttpPort,
    proto := .tcp, prov := .mitmRedirect, start := 26200 + 10 * (i : ℤ), stop := 31300,
    sz := 1024 * 1024 }

/-- Loop of lines 1401-1412. -/
def mitmApps : List Ev :=
  (List.range 2).map fun i : ℕ => mitmEv i

/-- Brute-force attempt `attempt` of remote client `i` on the FTP server
(lines 1426-1439): start `347.0 + i*0.1 + attempt*0.5`, stop `367.0`,
512 bytes; 3 clients, 10 attempts. -/
def ftpBruteEv (i attempt : ℕ) : Ev :=
  { role := .client, src := (.remote, i), dest := .dir (.dmz, 3), port := ftpPort,
    proto := .tcp, prov := .ftpBrute,
    start := 34700 + 10 * (i : ℤ) + 50 * (attempt : ℤ), stop := 36700, sz := 512 }

/-- Loops of lines 1426-1439. -/
def ftpBruteApps : List Ev :=
  (List.range 3).flatMap fun i : ℕ => (List.range 10).map fun attempt : ℕ => ftpBruteEv i attempt

/-- SQL injection payload strings of lines 1451-1458 (apostrophes written
with the escape `\x27`). -/
def sqlPayloads : List String :=
  ["\x27 OR \x271\x27=\x271",
   "\x27 OR \x27a\x27=\x27a",
   "\x27 OR 1=1 --",
   "\x27; DROP TABLE users; --",
   "\x27; SELECT * FROM users WHERE \x27a\x27=\x27a",
   "\x27 UNION SELECT NULL, NULL, NULL --"]

/-- SQL injection `OnOff` burst of enterprise client `i` with payload
`payloadIndex` (lines 1463-1481): `PacketSize = payload.size() + 50`,
start `368.0 + i*0.1 + payloadIndex*0.5`, stop `433.0`; 3 clients. -/
def sqlInjectionEv (i payloadIndex : ℕ) : Ev :=
  { role := .client, src := (.enterprise, i), dest := .dir (.dmz, 0), port := httpPort,
    proto := .tcp, prov := .sqlInjection,
    start := 36800 + 10 * (i : ℤ) + 50 * (payloadIndex : ℤ), stop := 43300,
    sz := (sqlPayloads.getD payloadIndex "").length + 50 }

/-- Loops of lines 1463-1481. -/
def sqlInjectionApps : List Ev :=
  (List.range 3).flatMap fun i : ℕ =>
    (List.range sqlPayloads.length).map fun payloadIndex : ℕ => sqlInjectionEv i payloadIndex

/-- SSH brute-force attempt `attempt` of remote client `i`
(lines 1495-1506): start `169.0 + i*0.2 + attempt*0.2`, stop `184.0`,
512 bytes; 3 clients, 20 attempts. -/
def sshBruteEv (i attempt : ℕ) : Ev :=
  { role := .client, src := (.remote, i), dest := .dir (.dmz, 3), port := sshPort,
    proto := .tcp, prov := .sshBrute,
    start := 16900 + 20 * (i : ℤ) + 20 * (attempt : ℤ), stop := 18400, sz := 512 }

/-- Loops of lines 1495-1506. -/
def sshBruteApps : List Ev :=
  (List.range 3).flatMap fun i : ℕ => (List.range 20).map fun attempt : ℕ => sshBruteEv i attempt

/-- FTP login-flood attempt `attempt` of enterprise client `i`
(lines 1520-1531): start `483.0 + i*0.1 + attempt*0.1`, stop `533.0`,
1024 bytes; 2 clients, 30 attempts. -/
def ftpLoginFloodEv (i attempt : ℕ) : Ev :=
  { role := .client, src := (.enterprise, i), dest := .dir (.dmz, 3), port := ftpPort,
    proto := .tcp, prov := .ftpLoginFlood,
    start := 48300 + 10 * (i : ℤ) + 10 * (attempt : ℤ), stop := 53300, sz := 1024 }

/-- Loops of lines 1520-1531. -/
def ftpLoginFloodApps : List Ev :=
  (List.range 2).flatMap fun i : ℕ =>
    (List.range 30).map fun attempt : ℕ => ftpLoginFloodEv i attempt

/-- Botnet C&C `PacketSink` on `dmzServers.Get(4)` port 9999
(lines 1539-1543): start `20.0`, stop `700.0`. -/
def cncServerEv : Ev :=
  { role := .server, src := (.dmz, 4), dest := .any, port := cncPort,
    proto := .tcp, prov := .cncServer, start := 2000, stop := 70000, sz := 0 }

/-- Bot `OnOff` communication of Wi-Fi client `i` to the C&C server
(lines 1556-1570): start `546.0 + i*0.2`, stop `607.0`, 128-byte packets;
3 bots. -/
def botCommEv (i : ℕ) : Ev :=
  { role := .client, src := (.wifi, i), dest := .dir (.dmz, 4), port := cncPort,
    proto := .tcp, prov := .botComm, start := 54600 + 20 * (i : ℤ), stop := 60700, sz := 128 }

/-- Loop of lines 1556-1570. -/
def botCommApps : List Ev :=
  (List.range 3).map fun i : ℕ => botCommEv i

/-- VPN tunnel flood `OnOff` of remote client `i` on `vpnServerIp:443`
(lines 1585-1596): start `608.0 + i*0.1`, stop `633.0`, 1024-byte packets;
3 clients. -/
def vpnFloodEv (i : ℕ) : Ev :=
  { role := .client, src := (.remote, i), dest := .dir (.vpnsrv, 0), port := vpnPort,
    proto := .tcp, prov := .vpnFlood, start := 60800 + 10 * (i : ℤ), stop := 63300, sz := 1024 }

/-- Loop of lines 1585-1596. -/
def vpnFloodApps : List Ev :=
  (List.range 3).map fun i : ℕ => vpnFloodEv i

/-- Credential-stuffing attempt `attempt` of remote client `i` on the VPN server
(lines 1610-1623): start `444.0 + i*0.2 + attempt*0.1`, stop `483.0`, 512 bytes;
3 clients, 15 attempts. -/
def credStuffEv (i attempt : ℕ) : Ev :=
  { role := .client, src := (.remote, i), dest := .dir (.vpnsrv, 0), port := vpnPort,
    proto := .tcp, prov := .credStuff,
    start := 44400 + 20 * (i : ℤ) + 10 * (attempt : ℤ), stop := 48300, sz := 512 }

/-- Loops of lines 1610-1623. -/
def credStuffApps : List Ev :=
  (List.range 3).flatMap fun i : ℕ =>
    (List.range 15).map fun attempt : ℕ => credStuffEv i attempt

/-- XSS payload strings of lines 1637-1642. -/
def xssPayloads : List String :=
  ["GET /search?q=<script>alert(\x27XSS1\x27)</script> HTTP/1.1",
   "GET /profile?name=<script>alert(\x27XSS2\x27)</script> HTTP/1.1",
   "GET /comments?id=1\x27><script>alert(\x27XSS3\x27)</script> HTTP/1.1",
   "GET /index.html?page=<script>alert(\x27XSS4\x27)</script> HTTP/1.1"]

/-- XSS `OnOff` burst of enterprise client `i` with payload `payloadIndex`
(lines 1645-1661): `PacketSize = payload.size() + 50`,
start `728.0 + i*0.1 + payloadIndex*0.2`, stop `788.0`; 2 clients. -/
def xssEv (i payloadIndex : ℕ) : Ev :=
  { role := .client, src := (.enterprise, i), dest := .dir (.dmz, 0), port := httpPort,
    proto := .tcp, prov := .xssAttack,
    start := 72800 + 10 * (i : ℤ) + 20 * (payloadIndex : ℤ), stop := 78800,
    sz := (xssPayloads.getD payloadIndex "").length + 50 }

/-- Loops of lines 1645-1661. -/
def xssApps : List Ev :=
  (List.range 2).flatMap fun i : ℕ =>
    (List.range xssPayloads.length).map fun payloadIndex : ℕ => xssEv i payloadIndex

/-- ARP-spoofing `OnOff` on the malicious node `enterpriseClients.Get(2)`
(lines 1675-1686): UDP to `targetIp:80` where `targetIp` is looked up from the
HTTP server node, start `321.0`, stop `346.0`, 128-byte packets. -/
def arpSpoofEv : Ev :=
  { role := .client, src := (.enterprise, 2), dest := .dir (.dmz, 0), port := 80,
    proto := .udp, prov := .arpSpoof, start := 32100, stop := 34600, sz := 128 }

/-- Single installation of lines 1684-1686. -/
def arpSpoofApps : List Ev := [arpSpoofEv]

/-- Zero-day `OnOff` of enterprise client 1 on the HTTP port
(lines 1705-1712): start `933.0`, stop `983.0`, 1024-byte packets. -/
def zeroDayHttpEv : Ev :=
  { role := .client, src := (.enterprise, 1), dest := .dir (.dmz, 0), port := httpPort,
    proto := .tcp, prov := .zeroDayHttp, start := 93300, stop := 98300, sz := 1024 }

/-- Zero-day `OnOff` of enterprise client 1 on the HTTPS port
(lines 1715-1722). -/
def zeroDayHttpsEv : Ev :=
  { role := .client, src := (.enterprise, 1), dest := .dir (.dmz, 0), port := httpsPort,
    proto := .tcp, prov := .zeroDayHttps, start := 93300, stop := 98300, sz := 1024 }

/-- Both zero-day installations of lines 1705-1722. -/
def zeroDayApps : List Ev := [zeroDayHttpEv, zeroDayHttpsEv]

/-- Source of the `i`-th DDoS attacker (lines 1739-1742:
`enterpriseClients.Get(0)`, `wifiStaNodes.Get(1)`, `remoteClients.Get(2)`). -/
def ddosSrc (i : ℕ) : Pop × ℕ :=
  if i = 0 then (.enterprise, 0) else if i = 1 then (.wifi, 1) else (.remote, 2)

/-- DDoS UDP `OnOff` of attacker `i` on the HTTP server port 80
(lines 1745-1756): start `583.0 + i*0.5`, stop `608.0`, 1024-byte packets. -/
def ddosEv (i : ℕ) : Ev :=
  { role := .client, src := ddosSrc i, dest := .dir (.dmz, 0), port := 80,
    proto := .udp, prov := .ddos, start := 58300 + 50 * (i : ℤ), stop := 60800, sz := 1024 }

/-- Loop of lines 1745-1756. -/
def ddosApps : List Ev :=
  (List.range 3).map fun i : ℕ => ddosEv i

/-! ## The full timeline of the build phase -/

/-- Every application installation performed by `main` before
`Simulator::Run()`, in source order.  This is the embedded Timeline handed
to the simulator. -/
def timeline (T : Tape) : List Ev :=
  serverApps ++
  entHttpHttpsApps T ++ entEmailApps T ++ entDnsApps T ++ entFtpApps T ++
  entSshApps T ++ entEchoApps T ++ entStreamApps T ++
  wifiHttpHttpsApps T ++ wifiEmailApps T ++ wifiDnsApps T ++ wifiStreamApps T ++
  wifiFtpApps T ++ wifiSshApps T ++ wifiEchoApps T ++
  remApps T ++
  synFloodApps ++ udpFloodApps ++ icmpFloodApps ++ portScanApps ++
  [fakeHttpServerEv] ++ mitmApps ++ ftpBruteApps ++ sqlInjectionApps ++
  sshBruteApps ++ ftpLoginFloodApps ++ [cncServerEv] ++ botCommApps ++
  vpnFloodApps ++ credStuffApps ++ xssApps ++ arpSpoofApps ++
  zeroDayApps ++ ddosApps

/-- Time passed to `Simulator::Stop` (line 1933: `Seconds(appStopTime)`). -/
def simulatorStop : ℤ := appStopTime

/-! ## Service installations and availability windows -/

/-- Service installation record: a listening application on a node, with its
concrete address, port, socket factory and active window. -/
structure Service where
  addr : ℕ
  port : ℕ
  proto : Proto
  start : ℤ
  stop : ℤ
  deriving DecidableEq, Repr

/-- All listening applications installed by the build (the ten DMZ servers of
lines 506-613, the fake HTTP server of lines 1383-1387 and the C&C server of
lines 1539-1543), with the address of the node they are installed on. -/
def services : List Service :=
  (serverApps ++ [fakeHttpServerEv, cncServerEv]).map fun e =>
    { addr := dirAddr e.src, port := e.port, proto := e.proto,
      start := e.start, stop := e.stop }

/-- Availability window of an event's target: the window of a service
installed at the address the destination resolves to, on the event's
destination port, with the event's socket factory; `none` when no such
service is installed. -/
def avail (e : Ev) : Option (ℤ × ℤ) :=
  (services.find? fun s =>
    decide (s.addr = resolveDest e.dest) && decide (s.port = e.port) &&
    decide (s.proto = e.proto)).map fun s => (s.start, s.stop)

/-- Truth of `exceedsAvail e` means the declared window of `e` extends beyond
its target service's active window — including the case of a target with no
installed service at all, whose availability is empty. -/
def exceedsAvail (e : Ev) : Prop :=
  match avail e with
  | none => True
  | some (s, t) => e.start < s ∨ t < e.stop

instance : DecidablePred exceedsAvail := fun e =>
  match h : avail e with
  | none => isTrue (by simp [exceedsAvail, h])
  | some (s, t) => decidable_of_iff (e.start < s ∨ t < e.stop) (by simp [exceedsAvail, h])

/-- Truth of `withinAvail e` means the event's (possibly truncated) window
lies inside its target service's active window — what the spec's truncation
policy guarantees for every event after validation. -/
def withinAvail (e : Ev) : Prop :=
  match avail e with
  | none => False
  | some (s, t) => s ≤ e.start ∧ e.stop ≤ t

instance : DecidablePred withinAvail := fun e =>
  match h : avail e with
  | none => isFalse (by simp [withinAvail, h])
  | some (s, t) => decidable_of_iff (s ≤ e.start ∧ e.stop ≤ t) (by simp [withinAvail, h])

/-! ## Address allocation (lines 370-430)

Model of `Ipv4AddressHelper`: `SetBase(base, mask)` starts a new subnet at
`base` whose size is determined by the mask; `Assign` hands out consecutive
host addresses starting at `base + 1`; `NewNetwork` advances to the next
consecutive subnet of the same size and resets the host cursor. -/

structure AddrHelper where
  network : ℕ
  step : ℕ
  host : ℕ
  deriving DecidableEq, Repr

/-- Subnet size of a dotted mask: `255.255.255.252` (a `/30`) covers 4
addresses, `255.255.255.0` (a `/24`) covers 256. -/
def maskSize30 : ℕ := 4

/-- Size of a `/24` subnet. -/
def maskSize24 : ℕ := 256

/-- Model of `Ipv4AddressHelper::SetBase`. -/
def AddrHelper.setBase (_ : AddrHelper) (base size : ℕ) : AddrHelper :=
  { network := base, step := size, host := 1 }

/-- Model of `Ipv4AddressHelper::Assign` on `k` devices: the addresses handed
out and the advanced helper. -/
def AddrHelper.assign (h : AddrHelper) (k : ℕ) : List ℕ × AddrHelper :=
  ((List.range k).map fun d : ℕ => h.network + h.host + d,
   { h with host := h.host + k })

/-- Model of `Ipv4AddressHelper::NewNetwork`. -/
def AddrHelper.newNetwork (h : AddrHelper) : AddrHelper :=
  { network := h.network + h.step, step := h.step, host := 1 }

/-- Subnet range (base, size) the helper currently allocates from. -/
def AddrHelper.subnet (h : AddrHelper) : ℕ × ℕ := (h.network, h.step)

/-- The subnets requested by the build, in the exact source order of the
`SetBase` calls of lines 373-430: the two core-router point-to-point `/30`s,
the VPN-to-core `/30`, the enterprise, access-to-distribution, DMZ,
Wi-Fi-AP-to-distribution and Wi-Fi `/24`s, and one `/30` per remote client
(`10.1.0.(i*4+20)`, line 426). -/
def allocatedSubnets : List (ℕ × ℕ) :=
  [(ipv4 10 1 0 0, maskSize30),
   (ipv4 10 1 0 4, maskSize30),
   (ipv4 10 1 0 8, maskSize30),
   (ipv4 10 1 1 0, maskSize24),
   (ipv4 10 1 2 0, maskSize24),
   (ipv4 10 3 1 0, maskSize24),
   (ipv4 10 1 3 0, maskSize24),
   (ipv4 10 2 1 0, maskSize24)] ++
  (List.range nRemoteClients).map fun i : ℕ => (ipv4 10 1 0 (i * 4 + 20), maskSize30)

/-- Truth of `subnetDisjoint a b` means the address ranges of the two subnets
do not intersect. -/
def subnetDisjoint (a b : ℕ × ℕ) : Prop :=
  a.1 + a.2 ≤ b.1 ∨ b.1 + b.2 ≤ a.1

instance : DecidableRel subnetDisjoint := fun a b => by
  unfold subnetDisjoint
  infer_instance

/-! ## Concrete tapes used as inputs for witnesses and counterexamples -/

/-- Tape with every draw zero except the SSH idle time, which is pinned to
the minimum of its uniform support (`1.0 s`). -/
def baseTape : Tape :=
  { entHttpPacketSize := fun _ => 0
    entHttpJitter := fun _ => 0
    entHttpsPacketSize := fun _ => 0
    entHttpsJitter := fun _ => 0
    entEmailProto := fun _ => 0
    entEmailMaxBytes := fun _ _ => 0
    entEmailJitter := fun _ _ => 0
    entDnsPacketSize := fun _ _ => 0
    entFtpMaxBytes := fun _ _ => 0
    entFtpInterval := fun _ _ => 0
    entSshMaxBytes := fun _ _ => 0
    entSshIdle := fun _ _ => 100
    entEchoPacketSize := fun _ => 0
    entStreamPacketSize := fun _ => 0
    wifiHttpMaxBytes := fun _ => 0
    wifiHttpsMaxBytes := fun _ => 0
    wifiEmailProto := fun _ => 0
    wifiEmailMaxBytes := fun _ => 0
    wifiDnsPacketSize := fun _ => 0
    wifiStreamPacketSize := fun _ => 0
    wifiFtpMaxBytes := fun _ => 0
    wifiSshMaxBytes := fun _ => 0
    wifiEchoPacketSize := fun _ => 0
    remHttpRand := fun _ => 0
    remHttpsRand := fun _ => 0
    remEmailProto := fun _ => 0
    remEmailSizeRand := fun _ => 0
    remEmailStartRand := fun _ => 0
    remFtpSizeRand := fun _ => 0
    remFtpStartRand := fun _ => 0
    remSshSizeRand := fun _ => 0
    remSshStartRand := fun _ => 0
    remEchoSizeRand := fun _ => 0
    remEchoStartRand := fun _ => 0
    remStreamSizeRand := fun _ => 0
    remStreamStartRand := fun _ => 0 }

/-- Tape differing from `baseTape` only in the e-mail protocol draw of the
enterprise clients (IMAP instead of SMTP). -/
def imapTape : Tape :=
  { baseTape with entEmailProto := fun _ => 1 }

/-- Tape differing from `baseTape` only in the HTTP jitter draw of the
enterprise clients: an exponential draw of `2000.0 s`, inside the support of
the unbounded `ExponentialRandomVariable` of line 669. -/
def bigJitterTape : Tape :=
  { baseTape with entHttpJitter := fun _ => 200000 }

/-! ## Projections and claim statements -/

/-- Projection of an event to its port-free topology: role, source,
destination, provenance. -/
def projTopo (e : Ev) : Role × (Pop × ℕ) × Dest × Prov :=
  (e.role, e.src, e.dest, e.prov)

/-- Projection of an event to its full topology: role, source, destination,
destination port, provenance.  The sampled numeric fields (start, stop and
size) are excluded. -/
def projTopoFull (e : Ev) : Role × (Pop × ℕ) × Dest × ℕ × Prov :=
  (e.role, e.src, e.dest, e.port, e.prov)

/-- Truth means the provenance is one of the three streaming-client
generators (the ones whose destination is a hardcoded literal). -/
def isStreamProv (p : Prov) : Prop :=
  p = .entStream ∨ p = .wifiStream ∨ p = .remStream

instance : DecidablePred isStreamProv := fun p => by
  unfold isStreamProv
  infer_instance

/-- Claim C1 as stated: with a fixed seed (hence a fixed tape) the build is
reproducible, and across runs without a seed (hence across arbitrary tapes)
only the sampled numeric fields may differ — never the event count or the
topology (sources, targets including ports, provenance). -/
def c1Stated : Prop :=
  (∀ T : Tape, timeline T = timeline T) ∧
  ∀ T U : Tape, SupportOk T → SupportOk U →
    (timeline T).map projTopoFull = (timeline U).map projTopoFull

/-- Claim C2 as stated: the port scan produces 36 events and the event of
attacker `a` and port index `p` starts at `scanStart + a·0.1 s + p·0.01 s`
(in centiseconds `15000 + 10·a + p`). -/
def c2Stated : Prop :=
  portScanApps.length = 36 ∧
  ∀ a : ℕ, a < 3 → ∀ p : ℕ, p < 12 →
    (portScanApps[12 * a + p]?).map Ev.start = some (15000 + 10 * (a : ℤ) + (p : ℤ))

/-- Claim C3 as stated: every scheduled event whose declared window extends
beyond its target service's availability has been truncated to the
intersection (and so, after validation, lies within the availability); no
such event is rejected, dropped, or left unchecked. -/
def c3Stated : Prop :=
  ∀ T : Tape, SupportOk T → ∀ e ∈ timeline T,
    e.role = Role.client → exceedsAvail e → withinAvail e

/-- Claim C4 as stated: every scheduled event of the build phase satisfies
`start ≤ stop`, for every tape within the distribution supports. -/
def c4Stated : Prop :=
  ∀ T : Tape, SupportOk T → ∀ e ∈ timeline T, e.start ≤ e.stop

/-- Claim C6 as stated: every generated (client) event resolves its
destination through a directory lookup, never an embedded literal. -/
def c6Stated : Prop :=
  ∀ T : Tape, SupportOk T → ∀ e ∈ timeline T,
    e.role = Role.client → Dest.isDir e.dest

/-- Per-event facts shared by several proofs below: the stop time never
exceeds the simulator horizon, and the destination of a client event is a
directory lookup except for the three streaming generators, which embed the
literal `10.3.1.1`. -/
def evBasic (e : Ev) : Prop :=
  e.stop ≤ simulatorStop ∧
  (e.role = Role.client →
    (isStreamProv e.prov → e.dest = Dest.literal (ipv4 10 3 1 1)) ∧
    (¬ isStreamProv e.prov → Dest.isDir e.dest))

instance : DecidablePred evBasic := fun e => by
  unfold evBasic
  infer_instance

/-- Helper state for the first core-router link allocation: the
`SetBase("10.1.0.0", "255.255.255.252")` call of line 373, starting from a
fresh helper. -/
def coreLinkAlloc : AddrHelper :=
  AddrHelper.setBase ⟨0, 0, 1⟩ (ipv4 10 1 0 0) maskSize30

/-! ## Helper lemmas: case analysis over the timeline and per-block facts -/

/-- Case analysis over the 34 blocks of `timeline`, in source order. -/
theorem forall_timeline {P : Ev → Prop} (T : Tape)
    (h1 : ∀ e ∈ serverApps, P e)
    (h2 : ∀ e ∈ entHttpHttpsApps T, P e)
    (h3 : ∀ e ∈ entEmailApps T, P e)
    (h4 : ∀ e ∈ entDnsApps T, P e)
    (h5 : ∀ e ∈ entFtpApps T, P e)
    (h6 : ∀ e ∈ entSshApps T, P e)
    (h7 : ∀ e ∈ entEchoApps T, P e)
    (h8 : ∀ e ∈ entStreamApps T, P e)
    (h9 : ∀ e ∈ wifiHttpHttpsApps T, P e)
    (h10 : ∀ e ∈ wifiEmailApps T, P e)
    (h11 : ∀ e ∈ wifiDnsApps T, P e)
    (h12 : ∀ e ∈ wifiStreamApps T, P e)
    (h13 : ∀ e ∈ wifiFtpApps T, P e)
    (h14 : ∀ e ∈ wifiSshApps T, P e)
    (h15 : ∀ e ∈ wifiEchoApps T, P e)
    (h16 : ∀ e ∈ remApps T, P e)
    (h17 : ∀ e ∈ synFloodApps, P e)
    (h18 : ∀ e ∈ udpFloodApps, P e)
    (h19 : ∀ e ∈ icmpFloodApps, P e)
    (h20 : ∀ e ∈ portScanApps, P e)
    (h21 : ∀ e ∈ [fakeHttpServerEv], P e)
    (h22 : ∀ e ∈ mitmApps, P e)
    (h23 : ∀ e ∈ ftpBruteApps, P e)
    (h24 : ∀ e ∈ sqlInjectionApps, P e)
    (h25 : ∀ e ∈ sshBruteApps, P e)
    (h26 : ∀ e ∈ ftpLoginFloodApps, P e)
    (h27 : ∀ e ∈ [cncServerEv], P e)
    (h28 : ∀ e ∈ botCommApps, P e)
    (h29 : ∀ e ∈ vpnFloodApps, P e)
    (h30 : ∀ e ∈ credStuffApps, P e)
    (h31 : ∀ e ∈ xssApps, P e)
    (h32 : ∀ e ∈ arpSpoofApps, P e)
    (h33 : ∀ e ∈ zeroDayApps, P e)
    (h34 : ∀ e ∈ ddosApps, P e) :
    ∀ e ∈ timeline T, P e := by
  intro e he
  simp only [timeline, List.mem_append, or_assoc] at he
  rcases he with h|h|h|h|h|h|h|h|h|h|h|h|h|h|h|h|h|h|h|h|h|h|h|h|h|h|h|h|h|h|h|h|h|h
  exacts [h1 e h, h2 e h, h3 e h, h4 e h, h5 e h, h6 e h, h7 e h, h8 e h, h9 e h,
    h10 e h, h11 e h, h12 e h, h13 e h, h14 e h, h15 e h, h16 e h, h17 e h, h18 e h,
    h19 e h, h20 e h, h21 e h, h22 e h, h23 e h, h24 e h, h25 e h, h26 e h, h27 e h,
    h28 e h, h29 e h, h30 e h, h31 e h, h32 e h, h33 e h, h34 e h]

theorem evBasic_entHttpHttpsApps (T : Tape) : ∀ e ∈ entHttpHttpsApps T, evBasic e := by
  intro e he
  obtain ⟨i, hi, hin⟩ := List.mem_flatMap.mp he
  simp only [List.mem_cons, List.not_mem_nil, or_false] at hin
  rcases hin with rfl | rfl <;>
    exact ⟨by simp [entHttpEv, entHttpsEv, simulatorStop],
      by simp [entHttpEv, entHttpsEv, isStreamProv, Dest.isDir]⟩

theorem evBasic_entEmailApps (T : Tape) : ∀ e ∈ entEmailApps T, evBasic e := by
  intro e he
  obtain ⟨i, hi, hin⟩ := List.mem_flatMap.mp he
  obtain ⟨j, hj, rfl⟩ := List.mem_map.mp hin
  exact ⟨by simp [entEmailEv, simulatorStop],
    by simp [entEmailEv, isStreamProv, Dest.isDir]⟩

theorem evBasic_entDnsApps (T : Tape) : ∀ e ∈ entDnsApps T, evBasic e := by
  intro e he
  obtain ⟨i, hi, hin⟩ := List.mem_flatMap.mp he
  obtain ⟨j, hj, rfl⟩ := List.mem_map.mp hin
  exact ⟨by simp [entDnsEv, simulatorStop],
    by simp [entDnsEv, isStreamProv, Dest.isDir]⟩

theorem evBasic_entFtpApps (T : Tape) : ∀ e ∈ entFtpApps T, evBasic e := by
  intro e he
  obtain ⟨i, hi, hin⟩ := List.mem_flatMap.mp he
  obtain ⟨j, hj, rfl⟩ := List.mem_map.mp hin
  exact ⟨by simp [entFtpEv, simulatorStop],
    by simp [entFtpEv, isStreamProv, Dest.isDir]⟩

theorem evBasic_entSshApps (T : Tape) : ∀ e ∈ entSshApps T, evBasic e := by
  intro e he
  obtain ⟨i, hi, hin⟩ := List.mem_flatMap.mp he
  obtain ⟨j, hj, rfl⟩ := List.mem_map.mp hin
  exact ⟨by simp [entSshEv, simulatorStop],
    by simp [entSshEv, isStreamProv, Dest.isDir]⟩

theorem evBasic_entEchoApps (T : Tape) : ∀ e ∈ entEchoApps T, evBasic e := by
  intro e he
  obtain ⟨i, hi, rfl⟩ := List.mem_map.mp he
  exact ⟨by simp [entEchoEv, simulatorStop],
    by simp [entEchoEv, isStreamProv, Dest.isDir]⟩

theorem evBasic_entStreamApps (T : Tape) : ∀ e ∈ entStreamApps T, evBasic e := by
  intro e he
  obtain ⟨i, hi, rfl⟩ := List.mem_map.mp he
  exact ⟨by simp [entStreamEv, simulatorStop],
    by simp [entStreamEv, isStreamProv, Dest.isDir]⟩

theorem evBasic_wifiHttpHttpsApps (T : Tape) : ∀ e ∈ wifiHttpHttpsApps T, evBasic e := by
  intro e he
  obtain ⟨i, hi, hin⟩ := List.mem_flatMap.mp he
  simp only [List.mem_cons, List.not_mem_nil, or_false] at hin
  rcases hin with rfl | rfl <;>
    exact ⟨by simp [wifiHttpEv, wifiHttpsEv, simulatorStop],
      by simp [wifiHttpEv, wifiHttpsEv, isStreamProv, Dest.isDir]⟩

theorem evBasic_wifiEmailApps (T : Tape) : ∀ e ∈ wifiEmailApps T, evBasic e := by
  intro e he
  obtain ⟨i, hi, rfl⟩ := List.mem_map.mp he
  exact ⟨by simp [wifiEmailEv, simulatorStop],
    by simp [wifiEmailEv, isStreamProv, Dest.isDir]⟩

theorem evBasic_wifiDnsApps (T : Tape) : ∀ e ∈ wifiDnsApps T, evBasic e := by
  intro e he
  obtain ⟨i, hi, rfl⟩ := List.mem_map.mp he
  exact ⟨by simp [wifiDnsEv, simulatorStop],
    by simp [wifiDnsEv, isStreamProv, Dest.isDir]⟩

theorem evBasic_wifiStreamApps (T : Tape) : ∀ e ∈ wifiStreamApps T, evBasic e := by
  intro e he
  obtain ⟨i, hi, rfl⟩ := List.mem_map.mp he
  exact ⟨by simp [wifiStreamEv, simulatorStop],
    by simp [wifiStreamEv, isStreamProv, Dest.isDir]⟩

theorem evBasic_wifiFtpApps (T : Tape) : ∀ e ∈ wifiFtpApps T, evBasic e := by
  intro e he
  obtain ⟨i, hi, rfl⟩ := List.mem_map.mp he
  exact ⟨by simp [wifiFtpEv, simulatorStop],
    by simp [wifiFtpEv, isStreamProv, Dest.isDir]⟩

theorem evBasic_wifiSshApps (T : Tape) : ∀ e ∈ wifiSshApps T, evBasic e := by
  intro e he
  obtain ⟨i, hi, rfl⟩ := List.mem_map.mp he
  exact ⟨by simp [wifiSshEv, simulatorStop],
    by simp [wifiSshEv, isStreamProv, Dest.isDir]⟩

theorem evBasic_wifiEchoApps (T : Tape) : ∀ e ∈ wifiEchoApps T, evBasic e := by
  intro e he
  obtain ⟨i, hi, rfl⟩ := List.mem_map.mp he
  exact ⟨by simp [wifiEchoEv, simulatorStop],
    by simp [wifiEchoEv, isStreamProv, Dest.isDir]⟩

theorem evBasic_remApps (T : Tape) : ∀ e ∈ remApps T, evBasic e := by
  intro e he
  obtain ⟨i, hi, hin⟩ := List.mem_flatMap.mp he
  have hi10 : i < 10 := List.mem_range.mp hi
  simp only [List.mem_cons, List.not_mem_nil, or_false] at hin
  rcases hin with rfl | rfl | rfl | rfl | rfl | rfl | rfl | rfl
  · exact ⟨by simp only [remHttpEv, simulatorStop, appStopTime]; omega,
      by simp [remHttpEv, isStreamProv, Dest.isDir]⟩
  · exact ⟨by simp [remHttpsEv, simulatorStop],
      by simp [remHttpsEv, isStreamProv, Dest.isDir]⟩
  · exact ⟨by simp [remEmailEv, simulatorStop],
      by simp [remEmailEv, isStreamProv, Dest.isDir]⟩
  · exact ⟨by simp only [remDnsEv, simulatorStop, appStopTime]; omega,
      by simp [remDnsEv, isStreamProv, Dest.isDir]⟩
  · exact ⟨by simp [remFtpEv, simulatorStop],
      by simp [remFtpEv, isStreamProv, Dest.isDir]⟩
  · exact ⟨by simp [remSshEv, simulatorStop],
      by simp [remSshEv, isStreamProv, Dest.isDir]⟩
  · exact ⟨by simp [remEchoEv, simulatorStop],
      by simp [remEchoEv, isStreamProv, Dest.isDir]⟩
  · exact ⟨by simp [remStreamEv, simulatorStop, appStopTime],
      by simp [remStreamEv, isStreamProv, Dest.isDir]⟩

/-- Basic facts hold for every event of the timeline, whatever the tape. -/
theorem evBasic_timeline (T : Tape) : ∀ e ∈ timeline T, evBasic e := by
  refine forall_timeline T (by decide) (evBasic_entHttpHttpsApps T) (evBasic_entEmailApps T)
    (evBasic_entDnsApps T) (evBasic_entFtpApps T) (evBasic_entSshApps T)
    (evBasic_entEchoApps T) (evBasic_entStreamApps T) (evBasic_wifiHttpHttpsApps T)
    (evBasic_wifiEmailApps T) (evBasic_wifiDnsApps T) (evBasic_wifiStreamApps T)
    (evBasic_wifiFtpApps T) (evBasic_wifiSshApps T) (evBasic_wifiEchoApps T)
    (evBasic_remApps T) (by decide) (by decide) (by decide) (by decide) (by decide)
    (by decide) (by decide) (by decide) (by decide) (by decide) (by decide) (by decide)
    (by decide) (by decide) (by decide) (by decide) (by decide) (by decide)

/-! ### Per-block `start ≤ stop` facts -/

theorem startLe_entHttpHttpsApps (T : Tape)
    (hHttp : ∀ i < 10, T.entHttpJitter i ≤ 148600)
    (hHttps : ∀ i < 10, T.entHttpsJitter i ≤ 148500) :
    ∀ e ∈ entHttpHttpsApps T, e.start ≤ e.stop := by
  intro e he
  obtain ⟨i, hi, hin⟩ := List.mem_flatMap.mp he
  have hi10 : i < 10 := List.mem_range.mp hi
  simp only [List.mem_cons, List.not_mem_nil, or_false] at hin
  rcases hin with rfl | rfl
  · have h := hHttp i hi10
    simp only [entHttpEv, appStopTime]
    omega
  · have h := hHttps i hi10
    simp only [entHttpsEv, appStopTime]
    omega

theorem startLe_entEmailApps (T : Tape)
    (hEmail : ∀ i < 10, ∀ j < 10, T.entEmailJitter i j ≤ 147200) :
    ∀ e ∈ entEmailApps T, e.start ≤ e.stop := by
  intro e he
  obtain ⟨i, hi, hin⟩ := List.mem_flatMap.mp he
  obtain ⟨j, hj, rfl⟩ := List.mem_map.mp hin
  have hi10 : i < 10 := List.mem_range.mp hi
  have hj10 : j < 10 := List.mem_range.mp hj
  have h := hEmail i hi10 j hj10
  simp only [entEmailEv, appStopTime]
  omega

theorem startLe_entDnsApps (T : Tape) : ∀ e ∈ entDnsApps T, e.start ≤ e.stop := by
  intro e he
  obtain ⟨i, hi, hin⟩ := List.mem_flatMap.mp he
  obtain ⟨j, hj, rfl⟩ := List.mem_map.mp hin
  have hi10 : i < 10 := List.mem_range.mp hi
  have hjb : j < 20 + i * 5 := List.mem_range.mp hj
  simp only [entDnsEv, appStopTime]
  omega

theorem startLe_entFtpApps (T : Tape) (hs : SupportOk T)
    (hFtp : ∀ i < 10, ∀ j < 5, T.entFtpInterval i j ≤ 36800) :
    ∀ e ∈ entFtpApps T, e.start ≤ e.stop := by
  intro e he
  obtain ⟨i, hi, hin⟩ := List.mem_flatMap.mp he
  obtain ⟨j, hj, rfl⟩ := List.mem_map.mp hin
  have hi10 : i < 10 := List.mem_range.mp hi
  have hjb : j < 3 + i % 3 := List.mem_range.mp hj
  have hj5 : j < 5 := by omega
  have h0 := hs.2.2.1 i hi10 j hj5
  have h1 := hFtp i hi10 j hj5
  have hj4 : (j : ℤ) ≤ 4 := by exact_mod_cast Nat.lt_succ_iff.mp hj5
  have hprod : (j : ℤ) * T.entFtpInterval i j ≤ 4 * 36800 :=
    mul_le_mul hj4 h1 h0 (by norm_num)
  have hi9 : (i : ℤ) ≤ 9 := by exact_mod_cast Nat.lt_succ_iff.mp hi10
  simp only [entFtpEv, appStopTime]
  linarith

theorem startLe_entSshApps (T : Tape) (hs : SupportOk T) :
    ∀ e ∈ entSshApps T, e.start ≤ e.stop := by
  intro e he
  obtain ⟨i, hi, hin⟩ := List.mem_flatMap.mp he
  obtain ⟨j, hj, rfl⟩ := List.mem_map.mp hin
  have hi10 : i < 10 := List.mem_range.mp hi
  have hjb : j < 2 + i % 3 := List.mem_range.mp hj
  have hj4 : j < 4 := by omega
  obtain ⟨hlo, hhi⟩ := hs.2.2.2 i hi10 j hj4
  have hj3 : (j : ℤ) ≤ 3 := by exact_mod_cast Nat.lt_succ_iff.mp hj4
  have hprod : (j : ℤ) * T.entSshIdle i j ≤ 3 * 500 :=
    mul_le_mul hj3 hhi (by linarith) (by norm_num)
  have hi9 : (i : ℤ) ≤ 9 := by exact_mod_cast Nat.lt_succ_iff.mp hi10
  simp only [entSshEv, appStopTime]
  linarith

theorem startLe_entEchoApps (T : Tape) : ∀ e ∈ entEchoApps T, e.start ≤ e.stop := by
  intro e he
  obtain ⟨i, hi, rfl⟩ := List.mem_map.mp he
  have hi10 : i < 10 := List.mem_range.mp hi
  simp only [entEchoEv, appStopTime]
  omega

theorem startLe_entStreamApps (T : Tape) : ∀ e ∈ entStreamApps T, e.start ≤ e.stop := by
  intro e he
  obtain ⟨i, hi, rfl⟩ := List.mem_map.mp he
  have hi10 : i < 10 := List.mem_range.mp hi
  simp only [entStreamEv, appStopTime]
  omega

theorem startLe_wifiHttpHttpsApps (T : Tape) :
    ∀ e ∈ wifiHttpHttpsApps T, e.start ≤ e.stop := by
  intro e he
  obtain ⟨i, hi, hin⟩ := List.mem_flatMap.mp he
  have hi10 : i < 10 := List.mem_range.mp hi
  simp only [List.mem_cons, List.not_mem_nil, or_false] at hin
  rcases hin with rfl | rfl
  · simp only [wifiHttpEv, appStopTime]
    omega
  · simp only [wifiHttpsEv, appStopTime]
    omega

theorem startLe_wifiEmailApps (T : Tape) : ∀ e ∈ wifiEmailApps T, e.start ≤ e.stop := by
  intro e he
  obtain ⟨i, hi, rfl⟩ := List.mem_map.mp he
  have hi10 : i < 10 := List.mem_range.mp hi
  simp only [wifiEmailEv, appStopTime]
  omega

theorem startLe_wifiDnsApps (T : Tape) : ∀ e ∈ wifiDnsApps T, e.start ≤ e.stop := by
  intro e he
  obtain ⟨i, hi, rfl⟩ := List.mem_map.mp he
  have hi10 : i < 10 := List.mem_range.mp hi
  simp only [wifiDnsEv, appStopTime]
  omega

theorem startLe_wifiStreamApps (T : Tape) : ∀ e ∈ wifiStreamApps T, e.start ≤ e.stop := by
  intro e he
  obtain ⟨i, hi, rfl⟩ := List.mem_map.mp he
  have hi10 : i < 10 := List.mem_range.mp hi
  simp only [wifiStreamEv, appStopTime]
  omega

theorem startLe_wifiFtpApps (T : Tape) : ∀ e ∈ wifiFtpApps T, e.start ≤ e.stop := by
  intro e he
  obtain ⟨i, hi, rfl⟩ := List.mem_map.mp he
  have hi10 : i < 10 := List.mem_range.mp hi
  simp only [wifiFtpEv, appStopTime]
  omega

theorem startLe_wifiSshApps (T : Tape) : ∀ e ∈ wifiSshApps T, e.start ≤ e.stop := by
  intro e he
  obtain ⟨i, hi, rfl⟩ := List.mem_map.mp he
  have hi10 : i < 10 := List.mem_range.mp hi
  simp only [wifiSshEv, appStopTime]
  omega

theorem startLe_wifiEchoApps (T : Tape) : ∀ e ∈ wifiEchoApps T, e.start ≤ e.stop := by
  intro e he
  obtain ⟨i, hi, rfl⟩ := List.mem_map.mp he
  have hi10 : i < 10 := List.mem_range.mp hi
  simp only [wifiEchoEv, appStopTime]
  omega

theorem startLe_remApps (T : Tape) : ∀ e ∈ remApps T, e.start ≤ e.stop := by
  intro e he
  obtain ⟨i, hi, hin⟩ := List.mem_flatMap.mp he
  have hi10 : i < 10 := List.mem_range.mp hi
  simp only [List.mem_cons, List.not_mem_nil, or_false] at hin
  rcases hin with rfl | rfl | rfl | rfl | rfl | rfl | rfl | rfl
  · simp only [remHttpEv]
    omega
  · simp only [remHttpsEv, appStopTime]
    omega
  · simp only [remEmailEv, appStopTime]
    omega
  · simp only [remDnsEv]
    omega
  · simp only [remFtpEv, appStopTime]
    omega
  · simp only [remSshEv, appStopTime]
    omega
  · simp only [remEchoEv, appStopTime]
    omega
  · simp only [remStreamEv]
    omega

/-! ### Per-block tape-independence of the port-free topology projection -/

theorem projTopo_entHttpHttpsApps (T U : Tape) :
    (entHttpHttpsApps T).map projTopo = (entHttpHttpsApps U).map projTopo := rfl

theorem projTopo_entEmailApps (T U : Tape) :
    (entEmailApps T).map projTopo = (entEmailApps U).map projTopo := rfl

set_option maxHeartbeats 1000000 in
theorem projTopo_entDnsApps (T U : Tape) :
    (entDnsApps T).map projTopo = (entDnsApps U).map projTopo := rfl

theorem projTopo_entFtpApps (T U : Tape) :
    (entFtpApps T).map projTopo = (entFtpApps U).map projTopo := rfl

theorem projTopo_entSshApps (T U : Tape) :
    (entSshApps T).map projTopo = (entSshApps U).map projTopo := rfl

theorem projTopo_entEchoApps (T U : Tape) :
    (entEchoApps T).map projTopo = (entEchoApps U).map projTopo := rfl

theorem projTopo_entStreamApps (T U : Tape) :
    (entStreamApps T).map projTopo = (entStreamApps U).map projTopo := rfl

theorem projTopo_wifiHttpHttpsApps (T U : Tape) :
    (wifiHttpHttpsApps T).map projTopo = (wifiHttpHttpsApps U).map projTopo := rfl

theorem projTopo_wifiEmailApps (T U : Tape) :
    (wifiEmailApps T).map projTopo = (wifiEmailApps U).map projTopo := rfl

theorem projTopo_wifiDnsApps (T U : Tape) :
    (wifiDnsApps T).map projTopo = (wifiDnsApps U).map projTopo := rfl

theorem projTopo_wifiStreamApps (T U : Tape) :
    (wifiStreamApps T).map projTopo = (wifiStreamApps U).map projTopo := rfl

theorem projTopo_wifiFtpApps (T U : Tape) :
    (wifiFtpApps T).map projTopo = (wifiFtpApps U).map projTopo := rfl

theorem projTopo_wifiSshApps (T U : Tape) :
    (wifiSshApps T).map projTopo = (wifiSshApps U).map projTopo := rfl

theorem projTopo_wifiEchoApps (T U : Tape) :
    (wifiEchoApps T).map projTopo = (wifiEchoApps U).map projTopo := rfl

theorem projTopo_remApps (T U : Tape) :
    (remApps T).map projTopo = (remApps U).map projTopo := rfl

/-- Filter of the enterprise HTTP/HTTPS loop down to its HTTP half. -/
theorem entHttpFilter (T : Tape) :
    (entHttpHttpsApps T).filter (fun e => decide (e.prov = Prov.entHttp)) =
      (List.range nEnterpriseClients).map (entHttpEv T) := rfl

/-! ## Claim C1 -/

/-- Claim C1, counterexample: the claim as stated is false on the code.  The
two tapes `baseTape` and `imapTape` differ only in the enterprise e-mail
protocol draw (a sampled value), both inside the distribution supports, yet
the full topology of the produced timelines differs: the e-mail events
target port 25 under one tape and port 143 under the other — a random draw
changes an event's target, not merely a sampled numeric field. -/
theorem c1_counterexample : ¬ c1Stated := by
  intro h
  exact absurd (h.2 baseTape imapTape (by decide) (by decide)) (by decide)

/-- Claim C1, amended: the build phase is a pure function of the tape, so a
fixed catalog and fixed seed reproduce the timeline byte-for-byte; across
runs without a seed (arbitrary tapes) the event count and the port-free
topology — role, source, destination address, provenance — never vary.  The
destination PORT of the e-mail events, however, is selected by a random
draw and can vary (see `c1_counterexample`), in addition to the sampled
numeric fields. -/
theorem c1_amended (T U : Tape) :
    (timeline T).length = (timeline U).length ∧
    (timeline T).map projTopo = (timeline U).map projTopo := by
  have hmap : (timeline T).map projTopo = (timeline U).map projTopo := by
    simp only [timeline, List.map_append]
    rw [projTopo_entHttpHttpsApps T U, projTopo_entEmailApps T U, projTopo_entDnsApps T U,
      projTopo_entFtpApps T U, projTopo_entSshApps T U, projTopo_entEchoApps T U,
      projTopo_entStreamApps T U, projTopo_wifiHttpHttpsApps T U, projTopo_wifiEmailApps T U,
      projTopo_wifiDnsApps T U, projTopo_wifiStreamApps T U, projTopo_wifiFtpApps T U,
      projTopo_wifiSshApps T U, projTopo_wifiEchoApps T U, projTopo_remApps T U]
  refine ⟨?_, hmap⟩
  have h1 := List.length_map (timeline T) projTopo
  have h2 := List.length_map (timeline U) projTopo
  rw [← h1, ← h2, hmap]

/-! ## Claim C2 -/

/-- Claim C2, counterexample: the port-scan start times do not follow
`scanStart + attacker·0.1 + portIndex·0.01`.  At attacker 0 and port index 0
the code schedules `scanStart + port·0.01 = 150.21 s` (the loop variable is
the port NUMBER 21), not `150.00 s`. -/
theorem c2_counterexample : ¬ c2Stated := by
  intro h
  exact absurd (h.2 0 (by norm_num) 0 (by norm_num)) (by decide)

/-- Claim C2, amended: the port scan produces exactly 36 events (3 attackers
× 12 ports), and the event of attacker `a` and port index `p` starts at
`scanStart + a·0.1 s + portNumber·0.01 s` — the offset is proportional to
the port NUMBER `portsToScan[p]`, not the port index — and stops at
`168.0 s`.  Times are in centiseconds. -/
theorem c2_amended :
    portScanApps.length = 36 ∧
    ∀ a : ℕ, a < 3 → ∀ p : ℕ, p < 12 →
      (portScanApps[12 * a + p]?).map (fun e => (e.src, e.start, e.stop, e.port)) =
        some ((Pop.wifi, a), 15000 + 10 * (a : ℤ) + (portsToScan.getD p 0 : ℤ), 16800,
          portsToScan.getD p 0) := by
  refine ⟨by decide, ?_⟩
  intro a ha p hp
  interval_cases a <;> interval_cases p <;> decide

/-- Claim C2, witness: attacker 1, port index 4 (port 80) starts at
`150.90 s = 15000 + 10·1 + 80` centiseconds. -/
theorem c2_witness :
    (portScanApps[16]?).map (fun e => (e.src, e.start, e.stop, e.port)) =
      some ((Pop.wifi, 1), 15090, 16800, 80) :=
  c2_amended.2 1 (by norm_num) 4 (by norm_num)

/-! ## Claim C3 -/

/-- Claim C3, counterexample: the build phase has no truncation pass.  The
port-scan probe of attacker 0 to port 21 of the DMZ web server targets a
(node, port, protocol) with no installed service — its window extends beyond
an empty availability — yet the event is scheduled with its full declared
window `[150.21, 168.0]` and no truncation: it is not within any target
availability after the build. -/
theorem c3_counterexample : ¬ c3Stated := by
  intro h
  exact absurd (h baseTape (by decide) (portScanEv 0 21) (by decide) rfl (by decide)) (by decide)

/-- Claim C3, amended: the scheduler performs no window validation at all.
Every port-scan event is kept in the timeline (never rejected or dropped)
with its declared window verbatim (`start = scanStart + a·0.1 + port·0.01`,
`stop = 168.0 s`), and the probes aimed at ports with no installed service
(every scanned port except 80 and 443) have empty availability, exceed it,
and are left unchecked — neither truncated nor annotated. -/
theorem c3_amended (T : Tape) :
    ∀ e ∈ portScanApps,
      e ∈ timeline T ∧
      e.start = 15000 + 10 * (e.src.2 : ℤ) + (e.port : ℤ) ∧
      e.stop = 16800 ∧
      (e.port ∉ ([80, 443] : List ℕ) →
        avail e = none ∧ exceedsAvail e ∧ ¬ withinAvail e) := by
  intro e he
  refine ⟨?_, ?_, ?_, ?_⟩
  · simp only [timeline, List.mem_append]
    tauto
  · exact (by decide : ∀ x ∈ portScanApps, x.start = 15000 + 10 * (x.src.2 : ℤ) + (x.port : ℤ))
      e he
  · exact (by decide : ∀ x ∈ portScanApps, x.stop = 16800) e he
  · exact (by decide : ∀ x ∈ portScanApps, x.port ∉ ([80, 443] : List ℕ) →
      avail x = none ∧ exceedsAvail x ∧ ¬ withinAvail x) e he

/-- Claim C3, witness: the port-21 probe of attacker 0 is in the timeline
and is not within any target availability. -/
theorem c3_witness :
    portScanEv 0 21 ∈ timeline baseTape ∧ ¬ withinAvail (portScanEv 0 21) := by
  have h := c3_amended baseTape (portScanEv 0 21) (by decide)
  exact ⟨h.1, (h.2.2.2 (by decide)).2.2⟩

/-! ## Claim C4 -/

/-- Claim C4, counterexample: `start ≤ stop` is not enforced for the
enterprise HTTP clients, whose start time adds an exponential jitter draw
(`randInterRequestTime`, unbounded above since ns-3's default `Bound = 0`)
to `5.0 + i` while the stop time is pinned at `1500.0`.  A draw of `2000 s`
(inside the distribution support) yields an event with
`start = 2005 s > stop = 1500 s`. -/
theorem c4_counterexample : ¬ c4Stated := by
  intro h
  exact absurd (h bigJitterTape (by decide) (entHttpEv bigJitterTape 0) (by decide)) (by decide)

/-- Claim C4, amended: `start ≤ stop` holds for every scheduled event —
benign and attack, every client/repeat/attack index — provided each
unbounded exponential draw that feeds a start time stays below the slack to
the global stop: HTTP jitter ≤ 1486 s, HTTPS jitter ≤ 1485 s, e-mail jitter
≤ 1472 s, FTP transfer interval ≤ 368 s (in centiseconds below).  All
other events — all attack events, all Wi-Fi and remote-client events, and
all events whose draws are bounded (`rand() % k`, uniform supports) —
satisfy it unconditionally. -/
theorem c4_amended (T : Tape) (hs : SupportOk T)
    (hHttp : ∀ i < 10, T.entHttpJitter i ≤ 148600)
    (hHttps : ∀ i < 10, T.entHttpsJitter i ≤ 148500)
    (hEmail : ∀ i < 10, ∀ j < 10, T.entEmailJitter i j ≤ 147200)
    (hFtp : ∀ i < 10, ∀ j < 5, T.entFtpInterval i j ≤ 36800) :
    ∀ e ∈ timeline T, e.start ≤ e.stop := by
  refine forall_timeline T (by decide) (startLe_entHttpHttpsApps T hHttp hHttps)
    (startLe_entEmailApps T hEmail) (startLe_entDnsApps T) (startLe_entFtpApps T hs hFtp)
    (startLe_entSshApps T hs) (startLe_entEchoApps T) (startLe_entStreamApps T)
    (startLe_wifiHttpHttpsApps T) (startLe_wifiEmailApps T) (startLe_wifiDnsApps T)
    (startLe_wifiStreamApps T) (startLe_wifiFtpApps T) (startLe_wifiSshApps T)
    (startLe_wifiEchoApps T) (startLe_remApps T) (by decide) (by decide) (by decide)
    (by decide) (by decide) (by decide) (by decide) (by decide) (by decide) (by decide)
    (by decide) (by decide) (by decide) (by decide) (by decide) (by decide) (by decide)
    (by decide)

/-- Claim C4, witness: on `baseTape` (all draws at the low end of their
supports) the first enterprise HTTP event satisfies `start ≤ stop`. -/
theorem c4_witness :
    (entHttpEv baseTape 0).start ≤ (entHttpEv baseTape 0).stop :=
  c4_amended baseTape (by decide) (by decide) (by decide) (by decide) (by decide)
    (entHttpEv baseTape 0) (by decide)

/-! ## Claim C5 -/

/-- Claim C5, confirmed: the address ranges of the eighteen subnets
allocated during the build — the two core-router `/30`s, the VPN-to-core
`/30`, the enterprise, access, DMZ, Wi-Fi-AP and Wi-Fi `/24`s, and the ten
per-remote-client VPN `/30`s — are pairwise disjoint. -/
theorem c5_subnets_disjoint : List.Pairwise subnetDisjoint allocatedSubnets := by
  decide

/-! ## Claim C6 -/

/-- Claim C6, counterexample: not every generator resolves its target
through the directory.  The enterprise streaming client embeds the literal
`Ipv4Address("10.3.1.1")` (line 917 of the source) as its destination, so
its event's destination is not a directory lookup. -/
theorem c6_counterexample : ¬ c6Stated := by
  intro h
  exact absurd (h baseTape (by decide) (entStreamEv baseTape 0) (by decide) rfl) (by decide)

/-- Claim C6, amended: every generated client event except those of the
three streaming generators (enterprise, Wi-Fi, remote) resolves its
destination through an interface-container/node lookup; the three streaming
generators embed the hardcoded literal `10.3.1.1` instead, so re-numbering
the topology would desynchronize exactly those flows. -/
theorem c6_amended (T : Tape) :
    ∀ e ∈ timeline T, e.role = Role.client →
      (isStreamProv e.prov → e.dest = Dest.literal (ipv4 10 3 1 1)) ∧
      (¬ isStreamProv e.prov → Dest.isDir e.dest) :=
  fun e he => (evBasic_timeline T e he).2

/-- Claim C6, witness: the first enterprise HTTP event resolves through the
directory, while the first enterprise streaming event carries the literal. -/
theorem c6_witness :
    Dest.isDir (entHttpEv baseTape 0).dest ∧
      (entStreamEv baseTape 0).dest = Dest.literal (ipv4 10 3 1 1) :=
  ⟨(c6_amended baseTape (entHttpEv baseTape 0) (by decide) rfl).2 (by decide),
   (c6_amended baseTape (entStreamEv baseTape 0) (by decide) rfl).1 (by decide)⟩

/-! ## Claim C7 -/

/-- Claim C7, confirmed: allocating a `/30` and then another `/30` starting
from base `10.1.0.0` yields exactly the ranges `10.1.0.0/30` and
`10.1.0.4/30`, in that order (and deterministically — the allocator model is
a pure function).  This holds both for the literal `SetBase` sequence of the
source (the first two entries of `allocatedSubnets`) and for the modelled
helper semantics: `SetBase("10.1.0.0"/30)` followed by `Assign` on the two
link devices and `NewNetwork` lands on `10.1.0.4/30`, assigning `10.1.0.1`
and `10.1.0.2` on the way. -/
theorem c7_allocator :
    allocatedSubnets.take 2 = [(ipv4 10 1 0 0, 4), (ipv4 10 1 0 4, 4)] ∧
    coreLinkAlloc.subnet = (ipv4 10 1 0 0, 4) ∧
    ((coreLinkAlloc.assign 2).2.newNetwork).subnet = (ipv4 10 1 0 4, 4) ∧
    (coreLinkAlloc.assign 2).1 = [ipv4 10 1 0 1, ipv4 10 1 0 2] := by
  refine ⟨by decide, by decide, by decide, by decide⟩

/-! ## Claim C8 -/

/-- Claim C8, confirmed: with the ten enterprise clients and the single HTTP
service, the enterprise HTTP generator with zero jitter produces exactly ten
HTTP events, one per client index `i`, starting at `5.0 + i` seconds
(`500 + 100·i` centiseconds) and all stopping at the configured global stop
time `appStopTime`. -/
theorem c8_scenarioA (T : Tape) (h : ∀ i < 10, T.entHttpJitter i = 0) :
    ((entHttpHttpsApps T).filter (fun e => decide (e.prov = Prov.entHttp))).length = 10 ∧
    ((entHttpHttpsApps T).filter (fun e => decide (e.prov = Prov.entHttp))).map
        (fun e => (e.src, e.port, e.start, e.stop)) =
      (List.range 10).map
        (fun i : ℕ => ((Pop.enterprise, i), httpPort, 500 + 100 * (i : ℤ), appStopTime)) := by
  rw [entHttpFilter]
  constructor
  · simp [nEnterpriseClients]
  · rw [List.map_map]
    show (List.range 10).map _ = _
    refine List.map_congr_left fun i hi => ?_
    have hi10 : i < 10 := List.mem_range.mp hi
    have h0 := h i hi10
    simp [entHttpEv, h0]

/-- Claim C8, witness: instantiated at the all-zero-jitter tape. -/
theorem c8_witness :
    ((entHttpHttpsApps baseTape).filter (fun e => decide (e.prov = Prov.entHttp))).length = 10 ∧
    ((entHttpHttpsApps baseTape).filter (fun e => decide (e.prov = Prov.entHttp))).map
        (fun e => (e.src, e.port, e.start, e.stop)) =
      (List.range 10).map
        (fun i : ℕ => ((Pop.enterprise, i), httpPort, 500 + 100 * (i : ℤ), appStopTime)) :=
  c8_scenarioA baseTape (by decide)

/-! ## Claim C9 -/

/-- Claim C9, confirmed: every payload-injection event — SQL injection
(3 attackers × 6 payloads) and XSS (2 attackers × 4 payloads) — has packet
size equal to its payload string length plus the fixed header constant 50,
and starts at `base + attacker·Δ_attacker + payloadIndex·Δ_payload`
(Δ_attacker = 0.1 s for both; Δ_payload = 0.5 s for SQL injection, 0.2 s for
XSS; centiseconds below). -/
theorem c9_payload_injection :
    (∀ i : ℕ, i < 3 → ∀ p : ℕ, p < 6 →
      (sqlInjectionApps[6 * i + p]?).map (fun e => (e.sz, e.start)) =
        some ((sqlPayloads.getD p "").length + 50, 36800 + 10 * (i : ℤ) + 50 * (p : ℤ))) ∧
    (∀ i : ℕ, i < 2 → ∀ p : ℕ, p < 4 →
      (xssApps[4 * i + p]?).map (fun e => (e.sz, e.start)) =
        some ((xssPayloads.getD p "").length + 50, 72800 + 10 * (i : ℤ) + 20 * (p : ℤ))) := by
  constructor
  · intro i hi p hp
    interval_cases i <;> interval_cases p <;> decide
  · intro i hi p hp
    interval_cases i <;> interval_cases p <;> decide

/-- Claim C9, witness: SQL payload 3 (`"';` `DROP TABLE users; --"`, length
23) from attacker 1 has size 73 and start `369.60 s`; XSS payload 2 (length
59) from attacker 1 has size 109 and start `728.50 s`. -/
theorem c9_witness :
    (sqlInjectionApps[9]?).map (fun e => (e.sz, e.start)) = some (73, 36960) ∧
    (xssApps[6]?).map (fun e => (e.sz, e.start)) = some (109, 72850) :=
  ⟨c9_payload_injection.1 1 (by norm_num) 3 (by norm_num),
   c9_payload_injection.2 1 (by norm_num) 2 (by norm_num)⟩

/-! ## Claim C10 -/

/-- Claim C10, confirmed: every application the build schedules — every
server, benign client and attack generator, for every index — stops no later
than the global stop time, and the simulator is told to halt at exactly that
time (`Simulator::Stop(Seconds(appStopTime))`, i.e. `1500.0 s = 150000`
centiseconds). -/
theorem c10_global_stop (T : Tape) :
    simulatorStop = 150000 ∧ ∀ e ∈ timeline T, e.stop ≤ simulatorStop :=
  ⟨rfl, fun e he => (evBasic_timeline T e he).1⟩

/-- Claim C10, witness: the remote streaming event of client 0, whose stop
time `160.0 s` is strictly inside the horizon. -/
theorem c10_witness :
    simulatorStop = 150000 ∧ (remStreamEv baseTape 0).stop ≤ simulatorStop :=
  ⟨(c10_global_stop baseTape).1,
   (c10_global_stop baseTape).2 (remStreamEv baseTape 0) (by decide)⟩

end IdsDataset
